import Mathlib

/-!
Shallow embedding of the market-gateway core (quant_system/market_gateway)
and proofs about its specified properties.

Modelling conventions:
- Python `datetime` values are embedded as `Int` microseconds since the epoch
  (UTC); `total_seconds()` comparisons are translated to exact integer
  microsecond comparisons.
- Python `Decimal` values are embedded as `ℚ`.
- Python dicts keyed by strings are embedded as association lists
  (`List (String × _)`) with first-match lookup and in-place update.
- Wall-clock reads (`datetime.now(timezone.utc)`) are passed in explicitly as
  a `now : Int` argument.
- Validation error messages are represented by an inductive `ValidationError`
  carrying the data interpolated into the Python message; only the presence
  and identity of errors matter to the properties proved here.
-/

namespace MarketGateway

/-- Data status enum, from models.py `DataStatus`. -/
inductive DataStatus where
  | VALID
  | STALE
  | INVALID
  | FILTERED
deriving DecidableEq, Repr

/-- Bar period enum, from models.py `BarPeriod` (the gateway only instantiates
generators for MINUTE_1 and MINUTE_5). -/
inductive BarPeriod where
  | MINUTE_1
  | MINUTE_5
  | MINUTE_15
  | MINUTE_30
  | HOUR_1
  | DAILY
deriving DecidableEq, Repr

/-- Tick-level market data, from models.py `TickData`. Timestamps are Int
microseconds since epoch; prices are ℚ. -/
structure TickData where
  symbol : String
  exchange : String
  timestamp : Int
  last_price : ℚ
  volume : Int := 0
  turnover : ℚ := 0
  open_interest : Int := 0
  bid_price_1 : ℚ := 0
  bid_volume_1 : Int := 0
  ask_price_1 : ℚ := 0
  ask_volume_1 : Int := 0
  pre_close : ℚ := 0
  pre_settlement : ℚ := 0
  upper_limit : ℚ := 0
  lower_limit : ℚ := 0
  gateway_name : String := ""
  local_timestamp : Option Int := none
  status : DataStatus := DataStatus.VALID
deriving DecidableEq, Repr

/-- The closed set of valid exchange codes, from models.py
`TickData._VALID_EXCHANGES`. -/
def VALID_EXCHANGES : List String :=
  ["CFFEX", "SHFE", "DCE", "CZCE", "INE", "GFEX"]

/-- Staleness threshold, from models.py
`_TIMESTAMP_STALE_THRESHOLD_SECONDS = 3600`, converted to microseconds. -/
def STALE_THRESHOLD_US : Int := 3600 * 1000000

/-- The validation errors `TickData.validate` can append, in source order.
Each constructor stands for the corresponding Python message string. -/
inductive ValidationError where
  | symbolEmpty
  | invalidExchange (exchange : String)
  | invalidPrice (price : ℚ)
  | staleTimestamp
deriving DecidableEq, Repr

/-- Result of `TickData.validate`: the returned pair plus the tick with its
(possibly mutated) `status` field. -/
structure ValidateResult where
  ok : Bool
  errors : List ValidationError
  tick : TickData
deriving DecidableEq, Repr

/-- models.py `TickData.validate`. Checks, in order: non-empty symbol, valid
exchange, price rule (`last_price <= 0 and volume > 0` is an error), and
staleness (`abs(now - timestamp) > 3600 s`). Staleness sets `status = STALE`;
afterwards any non-empty error list sets `status = INVALID`. Returns
`(len(errors) == 0, errors)`. -/
def TickData.validate (t : TickData) (now : Int) : ValidateResult :=
  let e1 : List ValidationError :=
    if t.symbol = "" then [ValidationError.symbolEmpty] else []
  let e2 : List ValidationError :=
    if t.exchange ∈ VALID_EXCHANGES then [] else [ValidationError.invalidExchange t.exchange]
  let e3 : List ValidationError :=
    if t.last_price ≤ 0 ∧ 0 < t.volume then [ValidationError.invalidPrice t.last_price] else []
  let isStale : Bool := STALE_THRESHOLD_US < |now - t.timestamp|
  let e4 : List ValidationError :=
    if isStale then [ValidationError.staleTimestamp] else []
  let errors := e1 ++ e2 ++ e3 ++ e4
  let t1 := if isStale then { t with status := DataStatus.STALE } else t
  let t2 := if errors = [] then t1 else { t1 with status := DataStatus.INVALID }
  ⟨errors = [], errors, t2⟩

/-- First-match lookup in an association list, embedding Python
`dict.get(key)`. -/
def alistGet {α : Type} : List (String × α) → String → Option α
  | [], _ => none
  | (k, x) :: rest, s => if k = s then some x else alistGet rest s

/-- In-place update (or append) in an association list, embedding Python
`dict[key] = value`. -/
def alistSet {α : Type} : List (String × α) → String → α → List (String × α)
  | [], s, v => [(s, v)]
  | (k, x) :: rest, s, v =>
      if k = s then (k, v) :: rest else (k, x) :: alistSet rest s v

/-- ctp_gateway.py `_check_tick_order`: reject a tick strictly older than the
per-symbol last-accepted timestamp; otherwise record its timestamp and accept.
Returns the decision together with the (possibly updated) last-seen map. -/
def check_tick_order (last_tick_time : List (String × Int)) (t : TickData) :
    Bool × List (String × Int) :=
  match alistGet last_tick_time t.symbol with
  | some lt =>
      if t.timestamp < lt then (false, last_tick_time)
      else (true, alistSet last_tick_time t.symbol t.timestamp)
  | none => (true, alistSet last_tick_time t.symbol t.timestamp)

/-- K-line bar data, from models.py `BarData`. -/
structure BarData where
  symbol : String
  exchange : String
  period : BarPeriod
  bar_datetime : Int
  open_price : ℚ
  high_price : ℚ
  low_price : ℚ
  close_price : ℚ
  volume : Int := 0
  turnover : ℚ := 0
  open_interest : Int := 0
  gateway_name : String := ""
deriving DecidableEq, Repr

/-- Per-(symbol, period) bar builder state, from ctp_gateway.py
`_BarGenerator`. -/
structure BarGen where
  symbol : String
  period : BarPeriod
  current_bar : Option BarData := none
  last_bar_time : Option Int := none
deriving DecidableEq, Repr

/-- ctp_gateway.py `_BarGenerator._get_bar_time`: truncate a UTC timestamp to
the period start (1m: floor to the minute; 5m: floor to the 5-minute boundary;
otherwise floor to the hour). In epoch microseconds these truncations are
floors to 60 s / 300 s / 3600 s boundaries. -/
def get_bar_time (period : BarPeriod) (ts : Int) : Int :=
  match period with
  | BarPeriod.MINUTE_1 => ts - ts % 60000000
  | BarPeriod.MINUTE_5 => ts - ts % 300000000
  | _ => ts - ts % 3600000000

/-- ctp_gateway.py `_BarGenerator.update`: on a new period boundary emit the
previous in-progress bar and open a new one seeded from the tick; otherwise
fold the tick into the current bar (H/L/C and the latest cumulative volume
snapshot). -/
def BarGen.update (g : BarGen) (t : TickData) : Option BarData × BarGen :=
  let bar_time := get_bar_time g.period t.timestamp
  let isNew : Bool :=
    match g.last_bar_time with
    | none => true
    | some lt => lt < bar_time
  if isNew then
    let newBar : BarData :=
      { symbol := t.symbol
        exchange := t.exchange
        period := g.period
        bar_datetime := bar_time
        open_price := t.last_price
        high_price := t.last_price
        low_price := t.last_price
        close_price := t.last_price
        volume := t.volume
        gateway_name := t.gateway_name }
    (g.current_bar, { g with current_bar := some newBar, last_bar_time := some bar_time })
  else
    match g.current_bar with
    | none => (none, g)
    | some b =>
        let b' :=
          { b with
            high_price := max b.high_price t.last_price
            low_price := min b.low_price t.last_price
            close_price := t.last_price
            volume := t.volume }
        (none, { g with current_bar := some b' })

/-- ctp_gateway.py `_update_bar_generators`: route a tick to every per-period
generator registered for its symbol, collecting completed bars. Symbols with
no generators are left untouched. -/
def update_bar_generators
    (gens : List (String × List (BarPeriod × BarGen))) (t : TickData) :
    List (String × List (BarPeriod × BarGen)) × List BarData :=
  match alistGet gens t.symbol with
  | none => (gens, [])
  | some pgs =>
      let upd := pgs.map (fun pg => (pg.1, pg.2.update t))
      let newPgs := upd.map (fun x => (x.1, x.2.2))
      let bars := upd.filterMap (fun x => x.2.1)
      (alistSet gens t.symbol newPgs, bars)

/-- Bounded tick-queue capacity, from base.py
`AbstractGateway._DEFAULT_QUEUE_SIZE = 10000`. -/
def DEFAULT_QUEUE_SIZE : Nat := 10000

/-- Ring-buffer cache capacity, from ctp_gateway.py
`CtpMarketGateway._TICK_CACHE_SIZE = 150000`. -/
def TICK_CACHE_SIZE : Nat := 150000

/-- Embedding of `deque(maxlen=N).append`: append on the right, evicting the oldest entries
beyond the fixed capacity. -/
def appendEvict (cache : List TickData) (t : TickData) : List TickData :=
  let c := cache ++ [t]
  if TICK_CACHE_SIZE < c.length then c.drop (c.length - TICK_CACHE_SIZE) else c

/-- Outcome of processing one raw tick through `_process_tick_async`. -/
inductive TickOutcome where
  | filtered (errors : List ValidationError)
  | outOfOrder
  | accepted
deriving DecidableEq, Repr

/-- The dispatch-loop state touched by `_process_tick_async`. Tick callbacks
are identified by `Nat` registration ids held in registration order;
`callback_log` records every callback invocation in order, and `bar_log`
records every completed bar handed to `_on_bar_complete`. -/
structure PipelineState where
  last_tick_time : List (String × Int) := []
  tick_queue : List TickData := []
  tick_cache : List TickData := []
  bar_generators : List (String × List (BarPeriod × BarGen)) := []
  last_tick_at : Option Int := none
  tick_callbacks : List Nat := []
  callback_log : List (Nat × TickData) := []
  bar_log : List BarData := []
  log_dirty_data : Bool := true
deriving DecidableEq, Repr

/-- ctp_gateway.py `_process_tick_async` (given the already-converted tick):
validate, drop dirty data; drop out-of-order data; update bar generators;
non-blocking enqueue (drop the new tick when the bounded queue is full);
append to the ring-buffer cache; update `last_tick_at`; invoke every
registered tick callback in registration order. -/
def process_tick_async (st : PipelineState) (t : TickData) (now : Int) :
    TickOutcome × PipelineState :=
  let r := t.validate now
  if r.ok then
    let chk := check_tick_order st.last_tick_time t
    if chk.1 then
      let gb := update_bar_generators st.bar_generators t
      let queue' :=
        if st.tick_queue.length < DEFAULT_QUEUE_SIZE then st.tick_queue ++ [t]
        else st.tick_queue
      (TickOutcome.accepted,
        { st with
          last_tick_time := chk.2
          bar_generators := gb.1
          bar_log := st.bar_log ++ gb.2
          tick_queue := queue'
          tick_cache := appendEvict st.tick_cache t
          last_tick_at := some now
          callback_log := st.callback_log ++ st.tick_callbacks.map (fun c => (c, t)) })
    else (TickOutcome.outOfOrder, st)
  else (TickOutcome.filtered r.errors, st)

/-- Fold a stream of (tick, wall-clock) pairs through `_process_tick_async`,
collecting the accepted ticks in arrival order. -/
def processTicks (st : PipelineState) : List (TickData × Int) → List TickData × PipelineState
  | [] => ([], st)
  | (t, now) :: rest =>
      let r := process_tick_async st t now
      let tail := processTicks r.2 rest
      match r.1 with
      | TickOutcome.accepted => (t :: tail.1, tail.2)
      | _ => tail

instance {ε α : Type} [DecidableEq ε] [DecidableEq α] : DecidableEq (Except ε α) :=
  fun x y =>
    match x, y with
    | Except.ok a, Except.ok b =>
        if h : a = b then Decidable.isTrue (by rw [h])
        else Decidable.isFalse (fun hc => h (Except.ok.inj hc))
    | Except.error a, Except.error b =>
        if h : a = b then Decidable.isTrue (by rw [h])
        else Decidable.isFalse (fun hc => h (Except.error.inj hc))
    | Except.ok _, Except.error _ => Decidable.isFalse (fun hc => Except.noConfusion hc)
    | Except.error _, Except.ok _ => Decidable.isFalse (fun hc => Except.noConfusion hc)

/-- Session state enum, from base.py `GatewayState`. -/
inductive GatewayState where
  | DISCONNECTED
  | CONNECTING
  | CONNECTED
  | SUBSCRIBING
  | RUNNING
  | RECONNECTING
  | ERROR
  | STOPPED
deriving DecidableEq, Repr

/-- base.py `AbstractGateway.is_connected`: true in CONNECTED, SUBSCRIBING or
RUNNING. -/
def is_connected (s : GatewayState) : Bool :=
  s = GatewayState.CONNECTED ∨ s = GatewayState.SUBSCRIBING ∨ s = GatewayState.RUNNING

/-- The guard of the base.py `tick_stream` consumer loop
(`while self._state != GatewayState.STOPPED`): true exactly when the loop
keeps polling. -/
def tick_stream_loop_continues (s : GatewayState) : Bool :=
  s ≠ GatewayState.STOPPED

/-- The gateway-level state mutated by connect/disconnect/subscribe, from
ctp_gateway.py `CtpMarketGateway`. `bar_symbols` records the symbols for which
`_init_bar_generator` has run; `api_present` models `self._api is not None`;
`reconnect_task` models an in-flight `self._reconnect_task`. -/
structure GatewayModel where
  state : GatewayState := GatewayState.DISCONNECTED
  subscribed_symbols : List String := []
  all_symbols : List String := []
  max_subscriptions : Nat := 1000
  bar_symbols : List String := []
  api_present : Bool := false
  reconnect_task : Bool := false
deriving DecidableEq, Repr

/-- ctp_gateway.py `disconnect`: from DISCONNECTED return unchanged; otherwise
cancel any in-flight reconnect task, release the SDK handle and transition to
DISCONNECTED. -/
def disconnect (g : GatewayModel) : GatewayModel :=
  if g.state = GatewayState.DISCONNECTED then g
  else
    { g with
      state := GatewayState.DISCONNECTED
      api_present := false
      reconnect_task := false }

/-- Glob matching of a pattern over a string, the semantics of the stdlib
`fnmatch.fnmatch` call in `_expand_wildcards` for the `*` (any run of
characters, including empty) and `?` (exactly one character) wildcards used by
the gateway's subscription patterns. -/
def globMatch : Nat → List Char → List Char → Bool
  | 0, _, _ => false
  | _ + 1, [], [] => true
  | _ + 1, [], _ :: _ => false
  | fuel + 1, '*' :: ps, [] => globMatch fuel ps []
  | fuel + 1, '*' :: ps, c :: cs =>
      globMatch fuel ps (c :: cs) || globMatch fuel ('*' :: ps) cs
  | _ + 1, '?' :: _, [] => false
  | fuel + 1, '?' :: ps, _ :: cs => globMatch fuel ps cs
  | _ + 1, _ :: _, [] => false
  | fuel + 1, p :: ps, c :: cs => p == c && globMatch fuel ps cs

/-- Embedding of `fnmatch.fnmatch(name, pattern)` over the gateway's symbol strings. The
fuel argument (pattern length + name length + 1 strictly dominates every
recursion chain of `globMatch`, each call dropping at least one character
from the pattern or the name) keeps the recursion structural. -/
def fnmatch (name pattern : String) : Bool :=
  globMatch (pattern.length + name.length + 1) pattern.toList name.toList

/-- ctp_gateway.py `_expand_wildcards`: each requested item containing `*` or
`?` is matched against the symbol universe (no-match patterns contribute
nothing beyond a warning); other items are taken literally; the result is
deduplicated. Python deduplicates via `list(set(...))` with unspecified
order; the embedding keeps first occurrences. -/
def expand_wildcards (all_symbols : List String) (symbols : List String) : List String :=
  let result := symbols.foldl
    (fun acc symbol =>
      if symbol.toList.contains '*' || symbol.toList.contains '?' then
        let matched := all_symbols.filter (fun s => fnmatch s symbol)
        if matched = [] then acc else acc ++ matched
      else acc ++ [symbol]) []
  result.eraseDups

/-- Fuel-driven chunking loop; the fuel bounds the number of batches, so the
recursion is structural. -/
def chunkFuel : Nat → List String → List (List String)
  | _, [] => []
  | 0, _ :: _ => []
  | fuel + 1, x :: xs => ((x :: xs).take 100) :: chunkFuel fuel ((x :: xs).drop 100)

/-- ctp_gateway.py `_SUBSCRIBE_BATCH_SIZE = 100` and the batching loop of
`subscribe` (`range(0, len(new_symbols), 100)` slicing): chunk the new-symbol
list into native-SDK batches of at most 100. The list's length is always
enough fuel, since every round consumes at least one element. -/
def chunk100 (l : List String) : List (List String) :=
  chunkFuel l.length l

/-- Subscription-path errors surfaced to the caller of `subscribe`, from
exceptions.py: `ConnectionException(CONNECTION_LOST)` and
`SubscriptionLimitExceededException` with its context payload. -/
inductive SubError where
  | connectionLost
  | limitExceeded (current_count : Nat) (max_limit : Nat)
      (requested_count : Nat) (symbols : List String)
deriving DecidableEq, Repr

/-- ctp_gateway.py `_do_subscribe`: in simulated mode (no API handle) succeed
without touching the SDK; otherwise issue one `SubscribeMarketData` call and
fail when it returns non-zero. Returns the success flag and the SDK calls
issued. -/
def do_subscribe (api_present : Bool) (sdk : List String → Int)
    (batch : List String) : Bool × List (List String) :=
  if api_present then (sdk batch == 0, [batch])
  else (true, [])

/-- The batching loop of ctp_gateway.py `subscribe`: accumulate
`(success_symbols, subscribed_symbols, sdk_calls)` over the batches; a failed
batch is logged and skipped without extending the success list or the
subscribed set. -/
def subscribe_batches (api_present : Bool) (sdk : List String → Int) :
    List (List String) → List String × List String × List (List String) →
    List String × List String × List (List String)
  | [], acc => acc
  | batch :: rest, acc =>
      let d := do_subscribe api_present sdk batch
      if d.1 then
        subscribe_batches api_present sdk rest
          (acc.1 ++ batch, acc.2.1 ++ batch, acc.2.2 ++ d.2)
      else
        subscribe_batches api_present sdk rest (acc.1, acc.2.1, acc.2.2 ++ d.2)

/-- Result of `subscribe`: the returned value or raised error, the gateway
state afterwards, and every SDK `SubscribeMarketData` call issued, in order. -/
structure SubscribeResult where
  result : Except SubError (List String)
  gw : GatewayModel
  sdk_calls : List (List String)
deriving DecidableEq, Repr

/-- The expanded, deduplicated, not-yet-subscribed symbols of a `subscribe`
call (ctp_gateway.py lines 341-344): wildcard expansion followed by the
idempotence filter against the subscribed set. -/
def new_symbols (g : GatewayModel) (symbols : List String) : List String :=
  (expand_wildcards g.all_symbols symbols).filter
    (fun s => !g.subscribed_symbols.contains s)

/-- ctp_gateway.py `subscribe`: require a connected state; transition to
SUBSCRIBING; expand wildcards; drop already-subscribed symbols; short-circuit
to RUNNING when nothing is new; enforce `max_subscriptions` (raising with the
current/max/requested counts and the attempted-new list); subscribe in batches
of 100, recording each successful batch into the subscribed set (batch
failures are logged and skipped); create bar generators for the successes;
transition to RUNNING and return the successes. -/
def subscribe (g : GatewayModel) (sdk : List String → Int)
    (symbols : List String) : SubscribeResult :=
  if is_connected g.state then
    let g1 := { g with state := GatewayState.SUBSCRIBING }
    let newSyms := new_symbols g1 symbols
    if newSyms = [] then
      ⟨Except.ok [], { g1 with state := GatewayState.RUNNING }, []⟩
    else
      let total := g1.subscribed_symbols.length + newSyms.length
      if g1.max_subscriptions < total then
        ⟨Except.error
            (SubError.limitExceeded g1.subscribed_symbols.length
              g1.max_subscriptions newSyms.length newSyms),
          g1, []⟩
      else
        let folded := subscribe_batches g1.api_present sdk (chunk100 newSyms)
          ([], g1.subscribed_symbols, [])
        let bar2 := folded.1.foldl
          (fun bs s => if bs.contains s then bs else bs ++ [s]) g1.bar_symbols
        ⟨Except.ok folded.1,
          { g1 with
            state := GatewayState.RUNNING
            subscribed_symbols := folded.2.1
            bar_symbols := bar2 },
          folded.2.2⟩
  else ⟨Except.error SubError.connectionLost, g, []⟩

/-- Reconnect configuration, from config.py `ReconnectConfig`. -/
structure ReconnectConfig where
  initial_interval : ℚ := 1
  max_interval : ℚ := 60
  multiplier : ℚ := 2
  max_attempts : Nat := 0
  alert_threshold : Nat := 10
deriving DecidableEq, Repr

/-- The pydantic field bounds of config.py `ReconnectConfig`
(`initial_interval` 0.1-10, `max_interval` 1-300, `multiplier` 1.1-5,
`max_attempts >= 0`, `alert_threshold >= 1`). -/
def ReconnectConfig.Valid (c : ReconnectConfig) : Prop :=
  1/10 ≤ c.initial_interval ∧ c.initial_interval ≤ 10 ∧
  1 ≤ c.max_interval ∧ c.max_interval ≤ 300 ∧
  11/10 ≤ c.multiplier ∧ c.multiplier ≤ 5 ∧
  1 ≤ c.alert_threshold

instance (c : ReconnectConfig) : Decidable c.Valid := by
  unfold ReconnectConfig.Valid
  infer_instance

/-- The mutable reconnect counters of the gateway
(`_consecutive_failures`, `_reconnect_interval`). -/
structure ReconnectState where
  consecutive_failures : Nat
  reconnect_interval : ℚ
deriving DecidableEq, Repr

/-- exceptions.py `ReconnectExhaustedException` as it would surface from the
reconnect loop. -/
inductive ReconnectError where
  | exhausted (attempt_count : Nat) (last_interval : ℚ)
deriving DecidableEq, Repr

/-- How a bounded observation of the reconnect loop ends: a successful login
(the loop returns true) or the loop still iterating after the observed
attempts. -/
inductive ReconnectOutcome where
  | success
  | stillRetrying
deriving DecidableEq, Repr

/-- Aggregate trace of a reconnect-loop run: how it ended, the counters
afterwards, every interval slept (in order), and the consecutive-failure
counts at which the alert sink fired. -/
structure ReconnectTrace where
  exit : Except ReconnectError ReconnectOutcome
  final : ReconnectState
  slept : List ℚ
  alerts : List Nat
deriving DecidableEq, Repr

/-- ctp_gateway.py `_do_reconnect`, driven by a list of attempt outcomes
(`true` = login succeeded, `false` = the attempt failed with some exception).
Each iteration increments `_consecutive_failures`, fires the alert sink when
the count reaches `alert_threshold`, sleeps `_reconnect_interval`, and tries
to reconnect. On success it resets the counters and returns; on failure it
multiplies the interval by `multiplier` clamped to `max_interval` and loops.
The loop body catches every exception, so no run constructs a
`ReconnectError`; in particular `max_attempts` is never consulted. -/
def do_reconnect_run (cfg : ReconnectConfig) (st : ReconnectState) :
    List Bool → ReconnectTrace
  | [] => ⟨Except.ok ReconnectOutcome.stillRetrying, st, [], []⟩
  | outcome :: rest =>
      let failures := st.consecutive_failures + 1
      let alerts := if cfg.alert_threshold ≤ failures then [failures] else []
      let slept := st.reconnect_interval
      if outcome then
        ⟨Except.ok ReconnectOutcome.success,
          ⟨0, cfg.initial_interval⟩, [slept], alerts⟩
      else
        let st' : ReconnectState :=
          ⟨failures, min (st.reconnect_interval * cfg.multiplier) cfg.max_interval⟩
        let tail := do_reconnect_run cfg st' rest
        ⟨tail.exit, tail.final, slept :: tail.slept, alerts ++ tail.alerts⟩

/-- The interval slept before the k-th reconnect attempt (k = 0, 1, ...) when
the loop is entered with freshly reset counters: the code's recurrence
`interval(0) = initial_interval`,
`interval(k+1) = min(interval(k) * multiplier, max_interval)`. -/
def reconnectInterval (cfg : ReconnectConfig) : Nat → ℚ
  | 0 => cfg.initial_interval
  | k + 1 => min (reconnectInterval cfg k * cfg.multiplier) cfg.max_interval

/-- Runtime values held in an error context, the subset of Python values the
gateway puts into contexts (_sensitive.py works over `Any`; the truncation
record uses a bool, a key list and an int). -/
inductive PyVal where
  | pstr (s : String)
  | pint (i : Int)
  | prat (q : ℚ)
  | pbool (b : Bool)
  | plist (keys : List String)
deriving DecidableEq, Repr

/-- The compile-time sensitive-key set, from _sensitive.py
`_DEFAULT_SENSITIVE_KEYS`. -/
def DEFAULT_SENSITIVE_KEYS : List String :=
  ["password", "passwd", "pwd", "token", "access_token", "refresh_token",
   "secret", "secret_key", "api_key", "apikey", "credential", "credentials",
   "auth", "authorization", "private_key", "broker_id", "investor_id",
   "auth_code", "app_id"]

/-- From _sensitive.py `get_sensitive_keys`: the union of the compile-time set and
the runtime-extensible set (runtime keys are lowercased on insertion by
`add_sensitive_key`). -/
def get_sensitive_keys (runtime_keys : List String) : List String :=
  DEFAULT_SENSITIVE_KEYS ++ runtime_keys

/-- The redaction placeholder, _sensitive.py `REDACTED_PLACEHOLDER`. -/
def REDACTED_PLACEHOLDER : String := "***REDACTED***"

/-- The context size cap, _sensitive.py `MAX_CONTEXT_SIZE_BYTES = 1024`. -/
def MAX_CONTEXT_SIZE_BYTES : Nat := 1024

/-- Python `str.lower()` over the ASCII key strings used in contexts,
character by character (kernel-reducible, unlike `String.toLower`). -/
def strToLower (s : String) : String :=
  String.mk (s.toList.map Char.toLower)

/-- The redaction pass of `sanitize_context`: keep every key, replacing the
value with the placeholder whenever the lowercased key is sensitive. -/
def redactEntry (sens : List String) (kv : String × PyVal) : String × PyVal :=
  if strToLower kv.1 ∈ sens then (kv.1, PyVal.pstr REDACTED_PLACEHOLDER) else kv

/-- From _sensitive.py `sanitize_context`: empty/None input yields a fresh empty
dict; otherwise build a new dict with sensitive values redacted, and if its
serialized size (`sys.getsizeof(str(sanitized))`, abstracted as the
`byteSize` argument) exceeds `max_size`, replace the whole result with the
truncation record carrying the original key list and the measured size. The
input is never mutated (the embedding is pure). -/
def sanitize_context (runtime_keys : List String)
    (byteSize : List (String × PyVal) → Nat) (max_size : Nat)
    (context : List (String × PyVal)) : List (String × PyVal) :=
  if context = [] then []
  else
    let current_sensitive := get_sensitive_keys runtime_keys
    let sanitized := context.map (redactEntry current_sensitive)
    let size_estimate := byteSize sanitized
    if max_size < size_estimate then
      [("_truncated", PyVal.pbool true),
       ("_original_keys", PyVal.plist (context.map Prod.fst)),
       ("_size_bytes", PyVal.pint size_estimate)]
    else sanitized

/-! Helper lemmas about the association-list primitives and the order check. -/

theorem alistGet_set_self {α : Type} (m : List (String × α)) (s : String) (v : α) :
    alistGet (alistSet m s v) s = some v := by
  induction m with
  | nil => simp [alistGet, alistSet]
  | cons hd tl ih =>
      obtain ⟨k, x⟩ := hd
      by_cases hk : k = s
      · simp [alistGet, alistSet, hk]
      · simp [alistGet, alistSet, hk, ih]

theorem alistGet_set_other {α : Type} (m : List (String × α)) (s s' : String) (v : α)
    (h : s' ≠ s) : alistGet (alistSet m s v) s' = alistGet m s' := by
  induction m with
  | nil => simp [alistGet, alistSet, Ne.symm h]
  | cons hd tl ih =>
      obtain ⟨k, x⟩ := hd
      by_cases hk : k = s
      · subst hk
        simp [alistGet, alistSet, Ne.symm h]
      · simp [alistGet, alistSet, hk, ih]

theorem check_tick_order_reject (m : List (String × Int)) (t : TickData) (v : Int)
    (hget : alistGet m t.symbol = some v) (hlt : t.timestamp < v) :
    check_tick_order m t = (false, m) := by
  simp [check_tick_order, hget, hlt]

theorem check_tick_order_accept (m : List (String × Int)) (t : TickData) (v : Int)
    (hget : alistGet m t.symbol = some v) (hge : v ≤ t.timestamp) :
    check_tick_order m t = (true, alistSet m t.symbol t.timestamp) := by
  simp [check_tick_order, hget, Int.not_lt.mpr hge]

theorem check_tick_order_true_get (m : List (String × Int)) (t : TickData)
    (h : (check_tick_order m t).1 = true) :
    alistGet (check_tick_order m t).2 t.symbol = some t.timestamp := by
  unfold check_tick_order at *
  cases hget : alistGet m t.symbol with
  | none => simp [hget, alistGet_set_self]
  | some lt =>
      by_cases hlt : t.timestamp < lt
      · simp [hget, hlt] at h
      · simp [hget, hlt, alistGet_set_self]

theorem check_tick_order_get_other (m : List (String × Int)) (t : TickData) (s : String)
    (hs : s ≠ t.symbol) :
    alistGet (check_tick_order m t).2 s = alistGet m s := by
  unfold check_tick_order
  cases hget : alistGet m t.symbol with
  | none => simp [alistGet_set_other m t.symbol s t.timestamp hs]
  | some lt =>
      by_cases hlt : t.timestamp < lt
      · simp [hlt]
      · simp [hlt, alistGet_set_other m t.symbol s t.timestamp hs]

theorem check_tick_order_accept_ge (m : List (String × Int)) (t : TickData) (v : Int)
    (hget : alistGet m t.symbol = some v) (h : (check_tick_order m t).1 = true) :
    v ≤ t.timestamp := by
  by_contra hc
  rw [check_tick_order_reject m t v hget (Int.not_le.mp hc)] at h
  simp at h

/-! Helper lemmas about `TickData.validate` and `_process_tick_async`. -/

theorem validate_ok_iff (t : TickData) (now : Int) :
    (t.validate now).ok = true ↔
      ¬(t.symbol = "") ∧ t.exchange ∈ VALID_EXCHANGES ∧
      ¬(t.last_price ≤ 0 ∧ 0 < t.volume) ∧
      ¬(STALE_THRESHOLD_US < |now - t.timestamp|) := by
  by_cases h1 : t.symbol = "" <;>
  by_cases h2 : t.exchange ∈ VALID_EXCHANGES <;>
  by_cases h3 : t.last_price ≤ 0 ∧ 0 < t.volume <;>
  by_cases h4 : STALE_THRESHOLD_US < |now - t.timestamp| <;>
  simp [TickData.validate, h1, h2, h3, h4]

theorem validate_ok_errors (t : TickData) (now : Int)
    (h : (t.validate now).ok = true) : (t.validate now).errors = [] := by
  unfold TickData.validate at *
  simp only [decide_eq_true_eq] at h
  simpa using h

theorem validate_stale (t : TickData) (now : Int)
    (h : STALE_THRESHOLD_US < |now - t.timestamp|) :
    (t.validate now).ok = false ∧ (t.validate now).tick.status = DataStatus.INVALID := by
  by_cases h1 : t.symbol = "" <;>
  by_cases h2 : t.exchange ∈ VALID_EXCHANGES <;>
  by_cases h3 : t.last_price ≤ 0 ∧ 0 < t.volume <;>
  simp [TickData.validate, h1, h2, h3, h]

theorem pta_accepted_iff (st : PipelineState) (t : TickData) (now : Int) :
    (process_tick_async st t now).1 = TickOutcome.accepted ↔
      (t.validate now).ok = true ∧ (check_tick_order st.last_tick_time t).1 = true := by
  by_cases hv : (t.validate now).ok = true <;>
  by_cases ho : (check_tick_order st.last_tick_time t).1 = true <;>
  simp [process_tick_async, hv, ho, Bool.eq_false_iff] at *

theorem pta_accepted_state (st : PipelineState) (t : TickData) (now : Int)
    (hv : (t.validate now).ok = true)
    (ho : (check_tick_order st.last_tick_time t).1 = true) :
    (process_tick_async st t now).2 =
      { st with
        last_tick_time := (check_tick_order st.last_tick_time t).2
        bar_generators := (update_bar_generators st.bar_generators t).1
        bar_log := st.bar_log ++ (update_bar_generators st.bar_generators t).2
        tick_queue :=
          if st.tick_queue.length < DEFAULT_QUEUE_SIZE then st.tick_queue ++ [t]
          else st.tick_queue
        tick_cache := appendEvict st.tick_cache t
        last_tick_at := some now
        callback_log := st.callback_log ++ st.tick_callbacks.map (fun c => (c, t)) } := by
  simp [process_tick_async, hv, ho]

theorem pta_not_accepted_state (st : PipelineState) (t : TickData) (now : Int)
    (h : (process_tick_async st t now).1 ≠ TickOutcome.accepted) :
    (process_tick_async st t now).2 = st := by
  by_cases hv : (t.validate now).ok = true <;>
  by_cases ho : (check_tick_order st.last_tick_time t).1 = true <;>
  simp [process_tick_async, hv, ho, Bool.eq_false_iff] at *

theorem processTicks_cons (st : PipelineState) (u : TickData) (now : Int)
    (rest : List (TickData × Int)) :
    processTicks st ((u, now) :: rest) =
      match (process_tick_async st u now).1 with
      | TickOutcome.accepted =>
          ((u :: (processTicks (process_tick_async st u now).2 rest).1),
            (processTicks (process_tick_async st u now).2 rest).2)
      | _ => processTicks (process_tick_async st u now).2 rest := by
  cases h : (process_tick_async st u now).1 <;> simp [processTicks, h]

theorem processTicks_lower_bound (l : List (TickData × Int)) :
    ∀ (st : PipelineState) (s : String) (v : Int),
      alistGet st.last_tick_time s = some v →
      ∀ t ∈ (processTicks st l).1, t.symbol = s → v ≤ t.timestamp := by
  induction l with
  | nil =>
      intro st s v hv t ht
      simp [processTicks] at ht
  | cons hd tl ih =>
      obtain ⟨u, now⟩ := hd
      intro st s v hv t ht hts
      rw [processTicks_cons] at ht
      by_cases hacc : (process_tick_async st u now).1 = TickOutcome.accepted
      · rw [hacc] at ht
        simp only [List.mem_cons] at ht
        have hstate : (process_tick_async st u now).2.last_tick_time =
            (check_tick_order st.last_tick_time u).2 := by
          have hv' := (pta_accepted_iff st u now).mp hacc
          rw [pta_accepted_state st u now hv'.1 hv'.2]
        have horder : (check_tick_order st.last_tick_time u).1 = true :=
          ((pta_accepted_iff st u now).mp hacc).2
        by_cases hus : u.symbol = s
        · have hget : alistGet st.last_tick_time u.symbol = some v := by rw [hus]; exact hv
          have huge : v ≤ u.timestamp :=
            check_tick_order_accept_ge st.last_tick_time u v hget horder
          rcases ht with rfl | ht
          · exact huge
          · have hget' : alistGet (process_tick_async st u now).2.last_tick_time s
                = some u.timestamp := by
              rw [hstate, ← hus]
              exact check_tick_order_true_get st.last_tick_time u horder
            exact le_trans huge (ih (process_tick_async st u now).2 s u.timestamp hget' t ht hts)
        · rcases ht with rfl | ht
          · exact absurd hts hus
          · have hget' : alistGet (process_tick_async st u now).2.last_tick_time s = some v := by
              rw [hstate, check_tick_order_get_other st.last_tick_time u s (fun hc => hus hc.symm)]
              exact hv
            exact ih (process_tick_async st u now).2 s v hget' t ht hts
      · cases ho : (process_tick_async st u now).1 with
        | accepted => exact absurd ho hacc
        | filtered errs =>
            rw [ho] at ht
            have hst := pta_not_accepted_state st u now (by rw [ho]; simp)
            rw [hst] at ht
            exact ih st s v hv t ht hts
        | outOfOrder =>
            rw [ho] at ht
            have hst := pta_not_accepted_state st u now (by rw [ho]; simp)
            rw [hst] at ht
            exact ih st s v hv t ht hts

theorem processTicks_chain (l : List (TickData × Int)) :
    ∀ (st : PipelineState) (s : String),
      List.Chain' (fun a b : TickData => a.timestamp ≤ b.timestamp)
        ((processTicks st l).1.filter (fun t => t.symbol == s)) := by
  induction l with
  | nil => intro st s; simp [processTicks]
  | cons hd tl ih =>
      obtain ⟨u, now⟩ := hd
      intro st s
      rw [processTicks_cons]
      cases hacc : (process_tick_async st u now).1 with
      | accepted =>
          simp only
          by_cases hus : u.symbol = s
          · rw [List.filter_cons_of_pos (by simp [hus])]
            rw [List.chain'_cons']
            constructor
            · intro b hb
              have hbmem := List.mem_of_mem_head? hb
              rw [List.mem_filter] at hbmem
              have hbs : b.symbol = s := by simpa using hbmem.2
              have hv' := (pta_accepted_iff st u now).mp hacc
              have hget' : alistGet (process_tick_async st u now).2.last_tick_time s
                  = some u.timestamp := by
                rw [pta_accepted_state st u now hv'.1 hv'.2]
                simp only
                rw [← hus]
                exact check_tick_order_true_get st.last_tick_time u hv'.2
              exact processTicks_lower_bound tl (process_tick_async st u now).2 s u.timestamp
                hget' b hbmem.1 hbs
            · exact ih (process_tick_async st u now).2 s
          · rw [List.filter_cons_of_neg (by simp [hus])]
            exact ih (process_tick_async st u now).2 s
      | filtered errs => exact ih (process_tick_async st u now).2 s
      | outOfOrder => exact ih (process_tick_async st u now).2 s

/-! Claim theorems. -/

/-- C1: per-symbol ordering. A tick strictly older than the per-symbol
last-accepted timestamp is discarded (and the last-seen map is untouched); a
tick with an equal or newer timestamp is accepted and recorded; consequently
any two consecutive accepted ticks of the same symbol have non-decreasing
timestamps, for every input stream fed through the ingest pipeline. -/
theorem c1_per_symbol_ordering :
    (∀ (m : List (String × Int)) (t : TickData) (v : Int),
        alistGet m t.symbol = some v → t.timestamp < v →
          check_tick_order m t = (false, m)) ∧
    (∀ (m : List (String × Int)) (t : TickData) (v : Int),
        alistGet m t.symbol = some v → v ≤ t.timestamp →
          check_tick_order m t = (true, alistSet m t.symbol t.timestamp)) ∧
    (∀ (st : PipelineState) (l : List (TickData × Int)) (s : String),
        List.Chain' (fun a b : TickData => a.timestamp ≤ b.timestamp)
          ((processTicks st l).1.filter (fun t => t.symbol == s))) :=
  ⟨check_tick_order_reject, check_tick_order_accept,
    fun st l s => processTicks_chain l st s⟩

/-- Concrete tick used to witness C1: timestamp 4, strictly older than the
recorded last-accepted timestamp 5. -/
def tickW1 : TickData :=
  { symbol := "IF2401", exchange := "CFFEX", timestamp := 4, last_price := 1 }

/-- Witness for C1 at a concrete input: the out-of-order tick is discarded and
the last-seen map unchanged. -/
theorem c1_per_symbol_ordering_witness :
    check_tick_order [("IF2401", 5)] tickW1 = (false, [("IF2401", 5)]) :=
  c1_per_symbol_ordering.1 [("IF2401", 5)] tickW1 5 (by decide) (by decide)

/-- C9 (amended): for every tick whose timestamp differs from the supplied
wall-clock `now` by more than the fixed 3600-second threshold, `validate()`
fails, and after it returns the tick's status is INVALID: the transient
`status = STALE` assignment is unconditionally overwritten by the final
`status = INVALID` assignment because the error list is non-empty. -/
theorem c9_stale_marks_invalid (t : TickData) (now : Int)
    (h : STALE_THRESHOLD_US < |now - t.timestamp|) :
    (t.validate now).ok = false ∧ (t.validate now).tick.status = DataStatus.INVALID := by
  by_cases h1 : t.symbol = "" <;>
  by_cases h2 : t.exchange ∈ VALID_EXCHANGES <;>
  by_cases h3 : t.last_price ≤ 0 ∧ 0 < t.volume <;>
  simp [TickData.validate, h1, h2, h3, h]

/-- Concrete tick used for C9: all field checks pass; only staleness fails
(timestamp at epoch, validated two hours later). -/
def tickC9 : TickData :=
  { symbol := "IF2401", exchange := "CFFEX", timestamp := 0, last_price := 1, volume := 10 }

/-- Counterexample for C9 as stated: a tick failing only the staleness check
ends with status INVALID, not STALE. -/
theorem c9_counterexample :
    (tickC9.validate 7200000000).ok = false ∧
    (tickC9.validate 7200000000).tick.status = DataStatus.INVALID ∧
    (tickC9.validate 7200000000).tick.status ≠ DataStatus.STALE := by decide

/-- Witness for C9 (amended) at a concrete input. -/
theorem c9_stale_marks_invalid_witness :
    STALE_THRESHOLD_US < |(7200000000 : Int) - tickC9.timestamp| ∧
    ((tickC9.validate 7200000000).ok = false ∧
      (tickC9.validate 7200000000).tick.status = DataStatus.INVALID) :=
  ⟨by decide, c9_stale_marks_invalid tickC9 7200000000 (by decide)⟩

/-- C5 (amended): every tick accepted by the pipeline has a non-empty symbol,
an exchange in the valid set, and volume ≤ 0 or last_price > 0 (the validator
only rejects a non-positive price when volume is strictly positive, so a
negative volume also bypasses the price rule); and a fresh tick with
volume = 0 and any price — in particular last_price = 0 — passes `validate()`
with `(true, [])` and is delivered to every registered callback. -/
theorem c5_accepted_tick_validity :
    (∀ (st : PipelineState) (t : TickData) (now : Int),
        (process_tick_async st t now).1 = TickOutcome.accepted →
          t.symbol ≠ "" ∧ t.exchange ∈ VALID_EXCHANGES ∧
          (t.volume ≤ 0 ∨ 0 < t.last_price)) ∧
    (∀ (st : PipelineState) (t : TickData) (now : Int),
        t.symbol ≠ "" → t.exchange ∈ VALID_EXCHANGES → t.volume = 0 →
        |now - t.timestamp| ≤ STALE_THRESHOLD_US →
        (check_tick_order st.last_tick_time t).1 = true →
          (t.validate now).ok = true ∧ (t.validate now).errors = [] ∧
          (process_tick_async st t now).1 = TickOutcome.accepted ∧
          (process_tick_async st t now).2.callback_log =
            st.callback_log ++ st.tick_callbacks.map (fun c => (c, t))) := by
  constructor
  · intro st t now hacc
    have hv := ((pta_accepted_iff st t now).mp hacc).1
    rw [validate_ok_iff] at hv
    obtain ⟨h1, h2, h3, -⟩ := hv
    refine ⟨h1, h2, ?_⟩
    by_cases hvol : t.volume ≤ 0
    · exact Or.inl hvol
    · right
      by_contra hp
      exact h3 ⟨le_of_not_lt hp, Int.not_le.mp hvol⟩
  · intro st t now h1 h2 h3 h4 ho
    have hok : (t.validate now).ok = true := by
      rw [validate_ok_iff]
      refine ⟨h1, h2, ?_, not_lt.mpr h4⟩
      rintro ⟨-, hv⟩
      rw [h3] at hv
      exact lt_irrefl 0 hv
    refine ⟨hok, validate_ok_errors t now hok, (pta_accepted_iff st t now).mpr ⟨hok, ho⟩, ?_⟩
    rw [pta_accepted_state st t now hok ho]

/-- Concrete accepted tick violating the claim as stated: volume is negative
(not zero) while last_price is 0, yet the pipeline accepts and delivers it. -/
def tickNegVol : TickData :=
  { symbol := "IF2401", exchange := "CFFEX", timestamp := 0, last_price := 0, volume := -1 }

/-- Counterexample for C5 as stated: an accepted (and enqueued) tick with
volume ≠ 0 and last_price ≤ 0. -/
theorem c5_counterexample :
    (process_tick_async {} tickNegVol 0).1 = TickOutcome.accepted ∧
    (process_tick_async {} tickNegVol 0).2.tick_queue = [tickNegVol] ∧
    ¬(tickNegVol.volume = 0 ∨ 0 < tickNegVol.last_price) := by decide

/-- Concrete pre-open tick used to witness C5 (amended). -/
def tickPreOpen : TickData :=
  { symbol := "IF2401", exchange := "CFFEX", timestamp := 0, last_price := 0, volume := 0 }

/-- Witness for C5 (amended) at a concrete input: the pre-open zero row passes
validation with no errors and is delivered to both registered callbacks. -/
theorem c5_accepted_tick_validity_witness :
    ((tickPreOpen.validate 0).ok = true ∧ (tickPreOpen.validate 0).errors = [] ∧
      (process_tick_async { tick_callbacks := [0, 1] } tickPreOpen 0).1 =
        TickOutcome.accepted ∧
      (process_tick_async { tick_callbacks := [0, 1] } tickPreOpen 0).2.callback_log =
        [] ++ [0, 1].map (fun c => (c, tickPreOpen))) :=
  c5_accepted_tick_validity.2 { tick_callbacks := [0, 1] } tickPreOpen 0
    (by decide) (by decide) (by decide) (by decide) (by decide)

/-- C10: when the bounded tick queue is already full, a validated, in-order
tick is dropped from the queue only: the ring-buffer cache still receives it,
`last_tick_at` is still updated, the bar aggregators are still updated (they
run before the enqueue attempt), and every registered tick callback is still
invoked with it in registration order. -/
theorem c10_queue_full_drop (st : PipelineState) (t : TickData) (now : Int)
    (hq : DEFAULT_QUEUE_SIZE ≤ st.tick_queue.length)
    (hv : (t.validate now).ok = true)
    (ho : (check_tick_order st.last_tick_time t).1 = true) :
    (process_tick_async st t now).1 = TickOutcome.accepted ∧
    (process_tick_async st t now).2.tick_queue = st.tick_queue ∧
    (process_tick_async st t now).2.tick_cache = appendEvict st.tick_cache t ∧
    (process_tick_async st t now).2.last_tick_at = some now ∧
    (process_tick_async st t now).2.callback_log =
      st.callback_log ++ st.tick_callbacks.map (fun c => (c, t)) ∧
    (process_tick_async st t now).2.bar_generators =
      (update_bar_generators st.bar_generators t).1 ∧
    (process_tick_async st t now).2.bar_log =
      st.bar_log ++ (update_bar_generators st.bar_generators t).2 := by
  refine ⟨(pta_accepted_iff st t now).mpr ⟨hv, ho⟩, ?_⟩
  rw [pta_accepted_state st t now hv ho]
  simp [Nat.not_lt.mpr hq]

/-- A pipeline state whose tick queue is exactly at capacity, with two
registered callbacks. -/
def stFullQueue : PipelineState :=
  { tick_queue := List.replicate DEFAULT_QUEUE_SIZE tickPreOpen
    tick_callbacks := [0, 1] }

/-- Witness for C10 at a concrete input with a full queue. -/
theorem c10_queue_full_drop_witness :
    DEFAULT_QUEUE_SIZE ≤ stFullQueue.tick_queue.length ∧
    ((process_tick_async stFullQueue tickPreOpen 0).1 = TickOutcome.accepted ∧
      (process_tick_async stFullQueue tickPreOpen 0).2.tick_queue = stFullQueue.tick_queue ∧
      (process_tick_async stFullQueue tickPreOpen 0).2.tick_cache =
        appendEvict stFullQueue.tick_cache tickPreOpen ∧
      (process_tick_async stFullQueue tickPreOpen 0).2.last_tick_at = some 0 ∧
      (process_tick_async stFullQueue tickPreOpen 0).2.callback_log =
        stFullQueue.callback_log ++ stFullQueue.tick_callbacks.map (fun c => (c, tickPreOpen)) ∧
      (process_tick_async stFullQueue tickPreOpen 0).2.bar_generators =
        (update_bar_generators stFullQueue.bar_generators tickPreOpen).1 ∧
      (process_tick_async stFullQueue tickPreOpen 0).2.bar_log =
        stFullQueue.bar_log ++ (update_bar_generators stFullQueue.bar_generators tickPreOpen).2) :=
  ⟨by simp [stFullQueue],
    c10_queue_full_drop stFullQueue tickPreOpen 0 (by simp [stFullQueue]) (by decide) (by decide)⟩

/-- C3 (amended): from every session state other than DISCONNECTED,
`disconnect()` completes with the session state DISCONNECTED (releasing the
SDK handle and the reconnect task); the `tick_stream` consumer-loop guard
(`state ≠ STOPPED`) still holds afterwards, so consumers keep polling — no
code path ever sets STOPPED, and STOPPED is not terminal (disconnect leaves
it for DISCONNECTED). -/
theorem c3_disconnect_reaches_disconnected (g : GatewayModel)
    (h : g.state ≠ GatewayState.DISCONNECTED) :
    (disconnect g).state = GatewayState.DISCONNECTED ∧
    (disconnect g).api_present = false ∧
    (disconnect g).reconnect_task = false ∧
    tick_stream_loop_continues (disconnect g).state = true := by
  simp [disconnect, h, tick_stream_loop_continues]

/-- A gateway in the RUNNING state with a live SDK handle. -/
def gRunning : GatewayModel :=
  { state := GatewayState.RUNNING, api_present := true }

/-- A gateway in the STOPPED state. -/
def gStopped : GatewayModel :=
  { state := GatewayState.STOPPED }

/-- Counterexample for C3 as stated: after `disconnect()` from RUNNING the
session state is DISCONNECTED, not STOPPED, the `tick_stream` consumer-loop
guard still holds (so the consumer does not terminate), and STOPPED is not
terminal — `disconnect()` from STOPPED transitions to DISCONNECTED. -/
theorem c3_counterexample :
    (disconnect gRunning).state = GatewayState.DISCONNECTED ∧
    (disconnect gRunning).state ≠ GatewayState.STOPPED ∧
    tick_stream_loop_continues (disconnect gRunning).state = true ∧
    (disconnect gStopped).state ≠ GatewayState.STOPPED := by decide

/-- Witness for C3 (amended) at a concrete input. -/
theorem c3_disconnect_reaches_disconnected_witness :
    gRunning.state ≠ GatewayState.DISCONNECTED ∧
    ((disconnect gRunning).state = GatewayState.DISCONNECTED ∧
      (disconnect gRunning).api_present = false ∧
      (disconnect gRunning).reconnect_task = false ∧
      tick_stream_loop_continues (disconnect gRunning).state = true) :=
  ⟨by decide, c3_disconnect_reaches_disconnected gRunning (by decide)⟩

theorem do_reconnect_run_cons_false (cfg : ReconnectConfig) (st : ReconnectState)
    (rest : List Bool) :
    do_reconnect_run cfg st (false :: rest) =
      ⟨(do_reconnect_run cfg
          ⟨st.consecutive_failures + 1,
            min (st.reconnect_interval * cfg.multiplier) cfg.max_interval⟩ rest).exit,
        (do_reconnect_run cfg
          ⟨st.consecutive_failures + 1,
            min (st.reconnect_interval * cfg.multiplier) cfg.max_interval⟩ rest).final,
        st.reconnect_interval ::
          (do_reconnect_run cfg
            ⟨st.consecutive_failures + 1,
              min (st.reconnect_interval * cfg.multiplier) cfg.max_interval⟩ rest).slept,
        (if cfg.alert_threshold ≤ st.consecutive_failures + 1
            then [st.consecutive_failures + 1] else []) ++
          (do_reconnect_run cfg
            ⟨st.consecutive_failures + 1,
              min (st.reconnect_interval * cfg.multiplier) cfg.max_interval⟩ rest).alerts⟩ :=
  rfl

theorem do_reconnect_run_cons_true (cfg : ReconnectConfig) (st : ReconnectState)
    (rest : List Bool) :
    do_reconnect_run cfg st (true :: rest) =
      ⟨Except.ok ReconnectOutcome.success, ⟨0, cfg.initial_interval⟩,
        [st.reconnect_interval],
        if cfg.alert_threshold ≤ st.consecutive_failures + 1
          then [st.consecutive_failures + 1] else []⟩ :=
  rfl

/-- C2 (amended): the reconnect loop never raises RECONNECT_EXHAUSTED for any
configuration — `max_attempts` is never consulted; every failed attempt
simply increments the consecutive-failure counter and the loop keeps
retrying, for arbitrarily many consecutive failures. -/
theorem c2_reconnect_never_exhausts :
    (∀ (cfg : ReconnectConfig) (st : ReconnectState) (outcomes : List Bool),
        ∃ o, (do_reconnect_run cfg st outcomes).exit = Except.ok o) ∧
    (∀ (cfg : ReconnectConfig) (st : ReconnectState) (n : Nat),
        (do_reconnect_run cfg st (List.replicate n false)).exit =
          Except.ok ReconnectOutcome.stillRetrying ∧
        (do_reconnect_run cfg st (List.replicate n false)).final.consecutive_failures =
          st.consecutive_failures + n) := by
  constructor
  · intro cfg st outcomes
    induction outcomes generalizing st with
    | nil => exact ⟨ReconnectOutcome.stillRetrying, rfl⟩
    | cons hd tl ih =>
        cases hd with
        | true => exact ⟨ReconnectOutcome.success, rfl⟩
        | false =>
            obtain ⟨o, ho⟩ := ih ⟨st.consecutive_failures + 1,
              min (st.reconnect_interval * cfg.multiplier) cfg.max_interval⟩
            exact ⟨o, by rw [do_reconnect_run_cons_false]; exact ho⟩
  · intro cfg st n
    induction n generalizing st with
    | zero => simp [do_reconnect_run]
    | succ n ih =>
        rw [List.replicate_succ, do_reconnect_run_cons_false]
        have h2 := ih ⟨st.consecutive_failures + 1,
          min (st.reconnect_interval * cfg.multiplier) cfg.max_interval⟩
        refine ⟨h2.1, ?_⟩
        rw [h2.2]
        show st.consecutive_failures + 1 + n = st.consecutive_failures + (n + 1)
        omega

/-- A reconnect configuration with `max_attempts = 1` (all other fields at
their defaults). -/
def cfgOneAttempt : ReconnectConfig := { max_attempts := 1 }

/-- Counterexample for C2 as stated: with `max_attempts = 1`, after two
consecutive failed attempts the loop is still retrying — it has not raised
RECONNECT_EXHAUSTED (nor any error), and its failure counter has passed
`max_attempts`. -/
theorem c2_counterexample :
    cfgOneAttempt.max_attempts = 1 ∧
    (do_reconnect_run cfgOneAttempt ⟨0, cfgOneAttempt.initial_interval⟩
        [false, false]).exit = Except.ok ReconnectOutcome.stillRetrying ∧
    (do_reconnect_run cfgOneAttempt ⟨0, cfgOneAttempt.initial_interval⟩
        [false, false]).final.consecutive_failures = 2 := by
  refine ⟨rfl, rfl, rfl⟩

theorem reconnectInterval_closed_form (cfg : ReconnectConfig)
    (h0 : 0 ≤ cfg.initial_interval) (h1 : 1 ≤ cfg.multiplier)
    (h2 : cfg.initial_interval ≤ cfg.max_interval) :
    ∀ k, reconnectInterval cfg k =
      min (cfg.initial_interval * cfg.multiplier ^ k) cfg.max_interval := by
  intro k
  induction k with
  | zero => simp [reconnectInterval, min_eq_left h2]
  | succ k ih =>
      have hm0 : (0 : ℚ) ≤ cfg.multiplier := le_trans zero_le_one h1
      have hpow : (0 : ℚ) ≤ cfg.initial_interval * cfg.multiplier ^ k :=
        mul_nonneg h0 (pow_nonneg hm0 k)
      rcases le_or_lt (cfg.initial_interval * cfg.multiplier ^ k) cfg.max_interval with hle | hlt
      · rw [show reconnectInterval cfg (k + 1) =
            min (reconnectInterval cfg k * cfg.multiplier) cfg.max_interval from rfl,
          ih, min_eq_left hle, pow_succ, ← mul_assoc]
      · have hM0 : (0 : ℚ) ≤ cfg.max_interval := le_trans h0 h2
        rw [show reconnectInterval cfg (k + 1) =
            min (reconnectInterval cfg k * cfg.multiplier) cfg.max_interval from rfl,
          ih, min_eq_right (le_of_lt hlt)]
        have hl : cfg.max_interval ≤ cfg.max_interval * cfg.multiplier :=
          le_mul_of_one_le_right hM0 h1
        have hr : cfg.max_interval ≤ cfg.initial_interval * cfg.multiplier ^ (k + 1) := by
          have hgrow : cfg.initial_interval * cfg.multiplier ^ k ≤
              cfg.initial_interval * cfg.multiplier ^ (k + 1) := by
            rw [pow_succ, ← mul_assoc]
            exact le_mul_of_one_le_right hpow h1
          exact le_trans (le_of_lt hlt) hgrow
        rw [min_eq_right hl, min_eq_right hr]

theorem do_reconnect_run_slept (cfg : ReconnectConfig) :
    ∀ (n k f : Nat),
      (do_reconnect_run cfg ⟨f, reconnectInterval cfg k⟩ (List.replicate n false)).slept =
        (List.range n).map (fun j => reconnectInterval cfg (k + j)) := by
  intro n
  induction n with
  | zero => intro k f; simp [do_reconnect_run]
  | succ n ih =>
      intro k f
      rw [List.replicate_succ, do_reconnect_run_cons_false]
      have hstep : min (reconnectInterval cfg k * cfg.multiplier) cfg.max_interval =
          reconnectInterval cfg (k + 1) := rfl
      simp only [hstep]
      rw [ih (k + 1) (f + 1), List.range_succ_eq_map, List.map_cons, List.map_map]
      refine congrArg₂ _ (by rw [Nat.add_zero]) ?_
      apply List.map_congr_left
      intro j hj
      simp only [Function.comp_apply]
      congr 1
      omega

set_option maxRecDepth 8000 in
/-- C6 (amended): for every reconnect configuration whose initial interval
does not exceed its maximum (the pydantic bounds allow both orders; the
multiplier bound 1.1 ≤ m ensures m ≥ 1), the sequence of intervals slept by
the reconnect loop under consecutive failures is
`min(initial * multiplier^k, max_interval)` for k = 0, 1, ...; with the
default configuration (initial=1, multiplier=2, max=60) the first ten
intervals are [1, 2, 4, 8, 16, 32, 60, 60, 60, 60]; and whenever a run ends
in a successful login both the failure counter and the interval are reset to
their initial values. -/
theorem c6_exponential_backoff (cfg : ReconnectConfig) (n : Nat)
    (h0 : 0 ≤ cfg.initial_interval) (h1 : 1 ≤ cfg.multiplier)
    (h2 : cfg.initial_interval ≤ cfg.max_interval) :
    ((do_reconnect_run cfg ⟨0, cfg.initial_interval⟩ (List.replicate n false)).slept =
      (List.range n).map
        (fun k => min (cfg.initial_interval * cfg.multiplier ^ k) cfg.max_interval)) ∧
    ((List.range 10).map (reconnectInterval {}) =
      [1, 2, 4, 8, 16, 32, 60, 60, 60, 60]) ∧
    (∀ (st : ReconnectState) (outcomes : List Bool),
        (do_reconnect_run cfg st outcomes).exit = Except.ok ReconnectOutcome.success →
        (do_reconnect_run cfg st outcomes).final = ⟨0, cfg.initial_interval⟩) := by
  refine ⟨?_, ?_, ?_⟩
  · have hbase : cfg.initial_interval = reconnectInterval cfg 0 := rfl
    rw [hbase, do_reconnect_run_slept cfg n 0 0]
    apply List.map_congr_left
    intro j hj
    rw [Nat.zero_add]
    exact reconnectInterval_closed_form cfg h0 h1 h2 j
  · simp [List.range_succ, reconnectInterval]
    norm_num
  · intro st outcomes
    induction outcomes generalizing st with
    | nil => intro h; simp [do_reconnect_run] at h
    | cons hd tl ih =>
        cases hd with
        | true => intro h; rw [do_reconnect_run_cons_true]
        | false =>
            intro h
            rw [do_reconnect_run_cons_false] at h ⊢
            exact ih _ h

/-- The default reconnect configuration (initial=1, multiplier=2, max=60). -/
def cfgDefault : ReconnectConfig := {}

/-- Witness for C6 (amended) at the default configuration with two failed
attempts. -/
theorem c6_exponential_backoff_witness :
    ((0 : ℚ) ≤ cfgDefault.initial_interval ∧ (1 : ℚ) ≤ cfgDefault.multiplier ∧
      cfgDefault.initial_interval ≤ cfgDefault.max_interval) ∧
    (((do_reconnect_run cfgDefault ⟨0, cfgDefault.initial_interval⟩
          (List.replicate 2 false)).slept =
        (List.range 2).map
          (fun k => min (cfgDefault.initial_interval * cfgDefault.multiplier ^ k)
            cfgDefault.max_interval)) ∧
      ((List.range 10).map (reconnectInterval {}) =
        [1, 2, 4, 8, 16, 32, 60, 60, 60, 60]) ∧
      (∀ (st : ReconnectState) (outcomes : List Bool),
          (do_reconnect_run cfgDefault st outcomes).exit =
            Except.ok ReconnectOutcome.success →
          (do_reconnect_run cfgDefault st outcomes).final =
            ⟨0, cfgDefault.initial_interval⟩)) :=
  ⟨⟨by decide, by decide, by decide⟩,
    c6_exponential_backoff cfgDefault 2 (by decide) (by decide) (by decide)⟩

/-- A pydantic-valid reconnect configuration whose initial interval exceeds
its maximum: initial=10, max=1, multiplier=2. -/
def cfgInverted : ReconnectConfig :=
  { initial_interval := 10, max_interval := 1, multiplier := 2 }

/-- Counterexample for C6 as stated: for this valid configuration the first
interval slept by the loop is 10, but `min(initial * multiplier^0, max)` is
1 — the loop never clamps the initial interval to `max_interval`. -/
theorem c6_counterexample :
    ReconnectConfig.Valid cfgInverted ∧
    (do_reconnect_run cfgInverted ⟨0, cfgInverted.initial_interval⟩ [false]).slept = [10] ∧
    min (cfgInverted.initial_interval * cfgInverted.multiplier ^ 0) cfgInverted.max_interval = 1 ∧
    (10 : ℚ) ≠ 1 := by
  refine ⟨?_, rfl, ?_, by norm_num⟩
  · unfold ReconnectConfig.Valid cfgInverted
    norm_num
  · unfold cfgInverted
    norm_num

/-! Helper lemmas about the subscription path. -/

theorem contains_iff_mem (l : List String) (s : String) : l.contains s = true ↔ s ∈ l := by
  simp

theorem chunkFuel_nil (fuel : Nat) : chunkFuel fuel [] = [] := by
  cases fuel <;> rfl

theorem chunkFuel_flatten :
    ∀ (fuel : Nat) (l : List String), l.length ≤ fuel → (chunkFuel fuel l).flatten = l := by
  intro fuel
  induction fuel with
  | zero =>
      intro l h
      cases l with
      | nil => simp [chunkFuel]
      | cons x xs => simp at h
  | succ fuel ih =>
      intro l h
      cases l with
      | nil => simp [chunkFuel]
      | cons x xs =>
          rw [chunkFuel, List.flatten_cons,
            ih ((x :: xs).drop 100) (by
              simp only [List.length_drop, List.length_cons]
              simp only [List.length_cons] at h
              omega)]
          exact List.take_append_drop 100 (x :: xs)

theorem chunk100_flatten (l : List String) : (chunk100 l).flatten = l :=
  chunkFuel_flatten l.length l le_rfl

theorem chunk100_small (l : List String) (h1 : l ≠ []) (h2 : l.length ≤ 100) :
    chunk100 l = [l] := by
  cases l with
  | nil => exact absurd rfl h1
  | cons x xs =>
      rw [chunk100, List.length_cons, chunkFuel, List.take_of_length_le h2,
        List.drop_eq_nil_of_le h2, chunkFuel_nil]

theorem subscribe_batches_all_success (sdk : List String → Int) (hsdk : ∀ b, sdk b = 0) :
    ∀ (batches : List (List String)) (a b : List String) (c : List (List String)),
      subscribe_batches true sdk batches (a, b, c) =
        (a ++ batches.flatten, b ++ batches.flatten, c ++ batches) := by
  intro batches
  induction batches with
  | nil => intro a b c; simp [subscribe_batches]
  | cons hd tl ih =>
      intro a b c
      rw [subscribe_batches]
      simp only [do_subscribe, hsdk hd, if_true]
      rw [ih (a ++ hd) (b ++ hd) (c ++ [hd])]
      simp [List.append_assoc]

theorem new_symbols_state_irrelevant (g : GatewayModel) (s : GatewayState)
    (symbols : List String) :
    new_symbols { g with state := s } symbols = new_symbols g symbols := rfl

theorem mem_new_symbols (g : GatewayModel) (symbols : List String) (s : String) :
    s ∈ new_symbols g symbols ↔
      s ∈ expand_wildcards g.all_symbols symbols ∧ s ∉ g.subscribed_symbols := by
  simp [new_symbols]

theorem subscribe_nothing_new (g : GatewayModel) (sdk : List String → Int)
    (symbols : List String)
    (hconn : is_connected g.state = true)
    (hnew : new_symbols g symbols = []) :
    subscribe g sdk symbols =
      ⟨Except.ok [], { g with state := GatewayState.RUNNING }, []⟩ := by
  simp only [subscribe, new_symbols_state_irrelevant]
  rw [if_pos hconn, if_pos hnew]

theorem subscribe_all_batches_ok (g : GatewayModel) (sdk : List String → Int)
    (symbols : List String)
    (hconn : is_connected g.state = true)
    (hapi : g.api_present = true)
    (hsdk : ∀ b, sdk b = 0)
    (hnew : new_symbols g symbols ≠ [])
    (hlim : ¬(g.max_subscriptions <
        g.subscribed_symbols.length + (new_symbols g symbols).length)) :
    subscribe g sdk symbols =
      ⟨Except.ok (new_symbols g symbols),
        { g with
          state := GatewayState.RUNNING
          subscribed_symbols := g.subscribed_symbols ++ new_symbols g symbols
          bar_symbols := ((new_symbols g symbols).foldl
            (fun bs s => if bs.contains s then bs else bs ++ [s]) g.bar_symbols) },
        chunk100 (new_symbols g symbols)⟩ := by
  simp only [subscribe, new_symbols_state_irrelevant]
  rw [if_pos hconn, if_neg hnew, if_neg hlim, hapi,
    subscribe_batches_all_success sdk hsdk (chunk100 (new_symbols g symbols))
      [] g.subscribed_symbols [], chunk100_flatten]
  simp

/-- C4 (amended): when the current subscribed count plus the count of new
(expanded, deduplicated, not-yet-subscribed) symbols exceeds
`max_subscriptions`, `subscribe` raises SUBSCRIPTION_LIMIT_EXCEEDED carrying
the current count, the max limit, the requested count and the attempted-new
symbol list; the subscribed set, the bar aggregators and the SDK are
untouched (no SDK call is issued) — but the session state is NOT unchanged:
the call has already transitioned it to SUBSCRIBING, and the raise leaves it
there. -/
theorem c4_limit_exceeded (g : GatewayModel) (sdk : List String → Int)
    (symbols : List String)
    (hconn : is_connected g.state = true)
    (hnew : new_symbols g symbols ≠ [])
    (hover : g.max_subscriptions <
        g.subscribed_symbols.length + (new_symbols g symbols).length) :
    subscribe g sdk symbols =
      ⟨Except.error
          (SubError.limitExceeded g.subscribed_symbols.length g.max_subscriptions
            (new_symbols g symbols).length (new_symbols g symbols)),
        { g with state := GatewayState.SUBSCRIBING }, []⟩ := by
  simp only [subscribe, new_symbols_state_irrelevant]
  rw [if_pos hconn, if_neg hnew, if_pos hover]

/-- An SDK stub whose SubscribeMarketData always reports success. -/
def sdkOk : List String → Int := fun _ => 0

/-- A RUNNING gateway with `max_subscriptions = 1` and nothing subscribed. -/
def gLimit : GatewayModel :=
  { state := GatewayState.RUNNING, max_subscriptions := 1, api_present := true }

/-- Counterexample for C4 as stated: the limit-exceeded raise does have a
side effect on the session state — afterwards the state is SUBSCRIBING, not
the RUNNING state the call started from. -/
theorem c4_counterexample :
    (subscribe gLimit sdkOk ["A", "B"]).result =
      Except.error (SubError.limitExceeded 0 1 2 ["A", "B"]) ∧
    (subscribe gLimit sdkOk ["A", "B"]).gw.subscribed_symbols =
      gLimit.subscribed_symbols ∧
    (subscribe gLimit sdkOk ["A", "B"]).sdk_calls = [] ∧
    (subscribe gLimit sdkOk ["A", "B"]).gw.state = GatewayState.SUBSCRIBING ∧
    (subscribe gLimit sdkOk ["A", "B"]).gw.state ≠ gLimit.state := by decide

/-- Witness for C4 (amended) at a concrete input. -/
theorem c4_limit_exceeded_witness :
    (is_connected gLimit.state = true ∧ new_symbols gLimit ["A", "B"] ≠ [] ∧
      gLimit.max_subscriptions <
        gLimit.subscribed_symbols.length + (new_symbols gLimit ["A", "B"]).length) ∧
    subscribe gLimit sdkOk ["A", "B"] =
      ⟨Except.error
          (SubError.limitExceeded gLimit.subscribed_symbols.length
            gLimit.max_subscriptions (new_symbols gLimit ["A", "B"]).length
            (new_symbols gLimit ["A", "B"])),
        { gLimit with state := GatewayState.SUBSCRIBING }, []⟩ :=
  ⟨⟨by decide, by decide, by decide⟩,
    c4_limit_exceeded gLimit sdkOk ["A", "B"] (by decide) (by decide) (by decide)⟩

/-- C8 (amended): with a live SDK handle whose SubscribeMarketData succeeds
and no limit breach, the first `subscribe(X)` issues one SDK call per batch
of 100 new symbols — exactly one call when there are between 1 and 100 new
symbols — and a second `subscribe(X)` returns an empty accepted-list, issues
zero SDK calls, and leaves the subscribed set (hence `subscription_count`)
unchanged. -/
theorem c8_subscribe_idempotent (g : GatewayModel) (sdk : List String → Int)
    (X : List String)
    (hconn : is_connected g.state = true)
    (hapi : g.api_present = true)
    (hsdk : ∀ b, sdk b = 0)
    (hlim : g.subscribed_symbols.length + (new_symbols g X).length ≤
      g.max_subscriptions) :
    (subscribe g sdk X).sdk_calls = chunk100 (new_symbols g X) ∧
    (new_symbols g X ≠ [] → (new_symbols g X).length ≤ 100 →
      (subscribe g sdk X).sdk_calls.length = 1) ∧
    (subscribe (subscribe g sdk X).gw sdk X).result = Except.ok [] ∧
    (subscribe (subscribe g sdk X).gw sdk X).sdk_calls = [] ∧
    (subscribe (subscribe g sdk X).gw sdk X).gw.subscribed_symbols =
      (subscribe g sdk X).gw.subscribed_symbols := by
  by_cases hnew : new_symbols g X = []
  · have h1 := subscribe_nothing_new g sdk X hconn hnew
    have hconn2 : is_connected ({ g with state := GatewayState.RUNNING } :
        GatewayModel).state = true := rfl
    have hnew2 : new_symbols ({ g with state := GatewayState.RUNNING } :
        GatewayModel) X = [] := by
      rw [new_symbols_state_irrelevant]
      exact hnew
    have h2 := subscribe_nothing_new { g with state := GatewayState.RUNNING }
      sdk X hconn2 hnew2
    rw [h1]
    simp only
    rw [h2]
    refine ⟨by rw [hnew]; rfl, fun h _ => absurd hnew h, rfl, rfl, rfl⟩
  · have hlim' : ¬(g.max_subscriptions <
        g.subscribed_symbols.length + (new_symbols g X).length) := not_lt.mpr hlim
    have h1 := subscribe_all_batches_ok g sdk X hconn hapi hsdk hnew hlim'
    rw [h1]
    simp only
    have hconn2 : is_connected GatewayState.RUNNING = true := rfl
    have hnew2 : new_symbols
        ({ g with
          state := GatewayState.RUNNING
          subscribed_symbols := g.subscribed_symbols ++ new_symbols g X
          bar_symbols := ((new_symbols g X).foldl
            (fun bs s => if bs.contains s then bs else bs ++ [s]) g.bar_symbols) } :
          GatewayModel) X = [] := by
      apply List.filter_eq_nil_iff.mpr
      intro s hs
      simp only [Bool.not_eq_true', Bool.not_eq_false]
      apply (contains_iff_mem _ s).mpr
      simp only [List.mem_append]
      by_cases hsub : s ∈ g.subscribed_symbols
      · exact Or.inl hsub
      · exact Or.inr ((mem_new_symbols g X s).mpr ⟨hs, hsub⟩)
    have h2 := subscribe_nothing_new _ sdk X hconn2 hnew2
    rw [h2]
    exact ⟨trivial,
      fun hne hle => by rw [chunk100_small (new_symbols g X) hne hle]; rfl,
      rfl, rfl, rfl⟩

/-- A RUNNING gateway with a live SDK handle, the default
`max_subscriptions = 1000`, and nothing subscribed. -/
def gEmpty : GatewayModel :=
  { state := GatewayState.RUNNING, api_present := true }

/-- A list of 101 distinct literal symbols, one more than the native per-call batch
cap. -/
def symbols101 : List String := (List.range 101).map (fun i => "S" ++ toString i)

set_option maxRecDepth 40000 in
/-- Counterexample for C8 as stated: subscribing 101 distinct symbols twice
issues two SDK SubscribeMarketData calls in total (the first call batches
into 100 + 1), not exactly one. -/
theorem c8_counterexample :
    ((subscribe gEmpty sdkOk symbols101).sdk_calls.length +
      (subscribe (subscribe gEmpty sdkOk symbols101).gw sdkOk
        symbols101).sdk_calls.length = 2) ∧
    ¬((subscribe gEmpty sdkOk symbols101).sdk_calls.length +
      (subscribe (subscribe gEmpty sdkOk symbols101).gw sdkOk
        symbols101).sdk_calls.length = 1) := by
  have h : (subscribe gEmpty sdkOk symbols101).sdk_calls.length +
      (subscribe (subscribe gEmpty sdkOk symbols101).gw sdkOk
        symbols101).sdk_calls.length = 2 := by decide
  exact ⟨h, by omega⟩

/-- Witness for C8 (amended) at a concrete input: one symbol, one SDK call,
idempotent second call. -/
theorem c8_subscribe_idempotent_witness :
    (is_connected gEmpty.state = true ∧ gEmpty.api_present = true ∧
      gEmpty.subscribed_symbols.length + (new_symbols gEmpty ["IF2401"]).length ≤
        gEmpty.max_subscriptions) ∧
    ((subscribe gEmpty sdkOk ["IF2401"]).sdk_calls =
        chunk100 (new_symbols gEmpty ["IF2401"]) ∧
      (new_symbols gEmpty ["IF2401"] ≠ [] →
        (new_symbols gEmpty ["IF2401"]).length ≤ 100 →
        (subscribe gEmpty sdkOk ["IF2401"]).sdk_calls.length = 1) ∧
      (subscribe (subscribe gEmpty sdkOk ["IF2401"]).gw sdkOk ["IF2401"]).result =
        Except.ok [] ∧
      (subscribe (subscribe gEmpty sdkOk ["IF2401"]).gw sdkOk ["IF2401"]).sdk_calls = [] ∧
      (subscribe (subscribe gEmpty sdkOk ["IF2401"]).gw sdkOk
          ["IF2401"]).gw.subscribed_symbols =
        (subscribe gEmpty sdkOk ["IF2401"]).gw.subscribed_symbols) :=
  ⟨⟨by decide, by decide, by decide⟩,
    c8_subscribe_idempotent gEmpty sdkOk ["IF2401"] (by decide) (by decide)
      (fun _ => rfl) (by decide)⟩

/-- C7: `sanitize_context` builds a fresh map in which every key whose
lowercase form is in the recognized sensitive-key set carries
`"***REDACTED***"` and every other entry is unchanged; when the serialized
size of that redacted map exceeds 1024 bytes the whole result is replaced by
the `{_truncated, _original_keys, _size_bytes}` record; and — as long as the
three metadata keys themselves are not registered as sensitive (true of the
default registry) — the output never carries a recognized sensitive key with
a non-redacted value. The embedding is pure, so the input map is never
mutated by construction. -/
theorem c7_sanitize_context (runtime_keys : List String)
    (byteSize : List (String × PyVal) → Nat) (context : List (String × PyVal))
    (hmeta : strToLower "_truncated" ∉ get_sensitive_keys runtime_keys ∧
      strToLower "_original_keys" ∉ get_sensitive_keys runtime_keys ∧
      strToLower "_size_bytes" ∉ get_sensitive_keys runtime_keys) :
    (context ≠ [] →
      byteSize (context.map (redactEntry (get_sensitive_keys runtime_keys))) ≤
        MAX_CONTEXT_SIZE_BYTES →
      sanitize_context runtime_keys byteSize MAX_CONTEXT_SIZE_BYTES context =
        context.map (redactEntry (get_sensitive_keys runtime_keys))) ∧
    (∀ k v, (k, v) ∈ context →
      strToLower k ∉ get_sensitive_keys runtime_keys →
      context ≠ [] →
      byteSize (context.map (redactEntry (get_sensitive_keys runtime_keys))) ≤
        MAX_CONTEXT_SIZE_BYTES →
      (k, v) ∈ sanitize_context runtime_keys byteSize MAX_CONTEXT_SIZE_BYTES context) ∧
    (context ≠ [] →
      MAX_CONTEXT_SIZE_BYTES <
        byteSize (context.map (redactEntry (get_sensitive_keys runtime_keys))) →
      sanitize_context runtime_keys byteSize MAX_CONTEXT_SIZE_BYTES context =
        [("_truncated", PyVal.pbool true),
         ("_original_keys", PyVal.plist (context.map Prod.fst)),
         ("_size_bytes", PyVal.pint
            (byteSize (context.map (redactEntry (get_sensitive_keys runtime_keys)))))]) ∧
    (∀ k v,
      (k, v) ∈ sanitize_context runtime_keys byteSize MAX_CONTEXT_SIZE_BYTES context →
      strToLower k ∈ get_sensitive_keys runtime_keys →
      v = PyVal.pstr REDACTED_PLACEHOLDER) := by
  obtain ⟨hm1, hm2, hm3⟩ := hmeta
  by_cases hctx : context = []
  · subst hctx
    refine ⟨fun h => absurd rfl h, ?_, fun h => absurd rfl h, ?_⟩
    · intro k v hk
      simp at hk
    · intro k v hk
      simp [sanitize_context] at hk
  · by_cases hsize : MAX_CONTEXT_SIZE_BYTES <
        byteSize (context.map (redactEntry (get_sensitive_keys runtime_keys)))
    · have hout : sanitize_context runtime_keys byteSize MAX_CONTEXT_SIZE_BYTES context =
          [("_truncated", PyVal.pbool true),
           ("_original_keys", PyVal.plist (context.map Prod.fst)),
           ("_size_bytes", PyVal.pint
              (byteSize (context.map (redactEntry (get_sensitive_keys runtime_keys)))))] := by
        unfold sanitize_context
        rw [if_neg hctx, if_pos hsize]
      refine ⟨fun _ hle => absurd hsize (not_lt.mpr hle), ?_, fun _ _ => hout, ?_⟩
      · intro k v hkv hks _ hle
        exact absurd hsize (not_lt.mpr hle)
      · intro k v hkv hks
        rw [hout] at hkv
        simp only [List.mem_cons, List.mem_singleton] at hkv
        rcases hkv with h | h | h | h
        · rw [Prod.mk.injEq] at h
          exact absurd (h.1 ▸ hks) hm1
        · rw [Prod.mk.injEq] at h
          exact absurd (h.1 ▸ hks) hm2
        · rw [Prod.mk.injEq] at h
          exact absurd (h.1 ▸ hks) hm3
        · exact absurd h (List.not_mem_nil (k, v))
    · have hout : sanitize_context runtime_keys byteSize MAX_CONTEXT_SIZE_BYTES context =
          context.map (redactEntry (get_sensitive_keys runtime_keys)) := by
        unfold sanitize_context
        rw [if_neg hctx, if_neg hsize]
      refine ⟨fun _ _ => hout, ?_, fun _ h => absurd h hsize, ?_⟩
      · intro k v hkv hks _ _
        rw [hout]
        have : redactEntry (get_sensitive_keys runtime_keys) (k, v) = (k, v) := by
          simp [redactEntry, hks]
        exact this ▸ List.mem_map_of_mem (redactEntry (get_sensitive_keys runtime_keys)) hkv
      · intro k v hkv hks
        rw [hout] at hkv
        obtain ⟨⟨k0, v0⟩, hk0, heq⟩ := List.mem_map.mp hkv
        by_cases hk0s : strToLower k0 ∈ get_sensitive_keys runtime_keys
        · have hred : redactEntry (get_sensitive_keys runtime_keys) (k0, v0) =
              (k0, PyVal.pstr REDACTED_PLACEHOLDER) := by
            simp [redactEntry, hk0s]
          rw [hred, Prod.mk.injEq] at heq
          exact heq.2.symm
        · have hred : redactEntry (get_sensitive_keys runtime_keys) (k0, v0) = (k0, v0) := by
            simp [redactEntry, hk0s]
          rw [hred, Prod.mk.injEq] at heq
          rw [← heq.1] at hks
          exact absurd hks hk0s

/-- Witness for C7 at a concrete input: a two-entry context with one
sensitive key, the default registry, and a size function that never
truncates. -/
theorem c7_sanitize_context_witness :
    (strToLower "_truncated" ∉ get_sensitive_keys [] ∧
      strToLower "_original_keys" ∉ get_sensitive_keys [] ∧
      strToLower "_size_bytes" ∉ get_sensitive_keys []) ∧
    (∀ k v,
      (k, v) ∈ sanitize_context [] (fun _ => 0) MAX_CONTEXT_SIZE_BYTES
        [("host", PyVal.pstr "h"), ("Password", PyVal.pstr "s3cr3t")] →
      strToLower k ∈ get_sensitive_keys [] →
      v = PyVal.pstr REDACTED_PLACEHOLDER) :=
  ⟨⟨by decide, by decide, by decide⟩,
    (c7_sanitize_context [] (fun _ => 0)
      [("host", PyVal.pstr "h"), ("Password", PyVal.pstr "s3cr3t")]
      ⟨by decide, by decide, by decide⟩).2.2.2⟩

end MarketGateway

